import Mathlib

/-!
Verification of the AniList title-catalog client
(`src/app/services/title/anilist/anilist_api.py` and
`src/app/services/title/anilist/schemas/title.py`) as a shallow embedding.

The network itself is external: each query operation is modelled as a pure
function of the upstream HTTP response it receives.  The response carries
its status code, its raw body text (what `await response.text()` yields)
and an optional typed body (what `await response.json()` followed by the
source's key navigations yields; `none` stands for any parse or shape
failure, which in the Python code surfaces as an untyped exception).
-/

/-- The typed errors raised by the client, plus `genericError` standing for
any untyped Python exception (malformed JSON, missing key, ...), which the
client deliberately does not catch. -/
inductive ApiError where
  | serverError (body : String)
  | titleNotFound (message : String)
  | genericError
deriving DecidableEq, Repr

/-- Modelled from the spec: the HTML-escaping helper
`app.text_utils.html_formatting` is not part of the provided sources; the
spec requires markup-significant characters to be escaped so that rendering
the text as HTML does not execute markup.  One character's escape. -/
def escape_html_char (c : Char) : String :=
  if c = '&' then "&amp;"
  else if c = '<' then "&lt;"
  else if c = '>' then "&gt;"
  else String.singleton c

/-- Modelled from the spec: escape every markup-significant character of a
string. -/
def escape_html_tags (s : String) : String :=
  String.join (s.toList.map escape_html_char)

/-- Modelled from the spec: the `escape_html_tags_or_none` helper applied to
optional upstream text (absent fields stay absent). -/
def escape_html_tags_or_none : Option String → Option String
  | none => none
  | some s => some (escape_html_tags s)

/-- `schemas/title.py`: `TitlePreview`. -/
structure TitlePreview where
  id : Int
  english_name : Option String
  romaji_name : Option String
  native_name : Option String
  title_format : String
  url : String
  banner_image_url : Option String
  description : Option String
  genres : List String
deriving DecidableEq, Repr

/-- `schemas/title.py`: `TitleRelation`. -/
structure TitleRelation where
  id : Int
  english_name : Option String
  romaji_name : Option String
  native_name : Option String
  title_format : String
  url : String
  banner_image_url : Option String
  description : Option String
  genres : List String
  relation_type : String
deriving DecidableEq, Repr

/-- The `title` sub-object of a media record in the upstream JSON. -/
structure MediaTitle where
  english : Option String
  romaji : Option String
  native : Option String
deriving DecidableEq, Repr

/-- A `Media` record of the upstream JSON body (the fields the source
navigates; the id-keyed query does not project `id` back, but the upstream
body may still carry one, so the field is always present in the model). -/
structure MediaData where
  id : Int
  title : MediaTitle
  format : String
  siteUrl : String
  bannerImage : Option String
  description : Option String
  genres : List String
deriving DecidableEq, Repr

/-- Body shape navigated by `title_preview_by_name` / `title_preview_by_id`:
`result["data"]["Media"]`. -/
structure MediaResponseData where
  Media : MediaData
deriving DecidableEq, Repr

/-- Whole JSON body for the single-media lookups. -/
structure MediaResponse where
  data : MediaResponseData
deriving DecidableEq, Repr

/-- Body shape navigated by `title_preview_page_by_name`:
`result["data"]["Page"]["media"]` is a list of media records. -/
structure PageData where
  media : List MediaData
deriving DecidableEq, Repr

/-- The `data` object of the paged-search body. -/
structure PageResponseData where
  Page : PageData
deriving DecidableEq, Repr

/-- Whole JSON body for the paged search. -/
structure PageResponse where
  data : PageResponseData
deriving DecidableEq, Repr

/-- One element of `result["data"]["Media"]["relations"]["edges"]`. -/
structure RelationEdge where
  node : MediaData
  relationType : String
deriving DecidableEq, Repr

/-- The `relations` object of the relations body. -/
structure TitleRelations where
  edges : List RelationEdge
deriving DecidableEq, Repr

/-- The `Media` object of the relations body. -/
structure RelationsMedia where
  relations : TitleRelations
deriving DecidableEq, Repr

/-- The `data` object of the relations body. -/
structure RelationsResponseData where
  Media : RelationsMedia
deriving DecidableEq, Repr

/-- Whole JSON body for `title_relations_by_id`. -/
structure RelationsResponse where
  data : RelationsResponseData
deriving DecidableEq, Repr

/-- An upstream HTTP response: status code, raw body text, and the typed
JSON body (`none` models any body whose parsing or key navigation fails,
which propagates as an untyped failure). -/
structure HttpResponse (β : Type) where
  status : Nat
  text : String
  json : Option β
deriving DecidableEq, Repr

/-- `AnilistApi.send_request_to_source`, lines 36-50: after posting, a
status of 500 or above raises `ServerError` carrying the raw body text;
otherwise the response is returned for the caller to inspect. -/
def send_request_to_source {β : Type} (response : HttpResponse β) :
    Except ApiError (HttpResponse β) :=
  if response.status ≥ 500 then
    .error (.serverError response.text)
  else
    .ok response

/-- `AnilistApi.title_preview_by_name`, lines 52-101: after the shared
status-500 check, a 404 status raises `TitleNotFound`; otherwise the body is
parsed and a `TitlePreview` is built, with the three display names and the
description HTML-escaped. -/
def title_preview_by_name (response : HttpResponse MediaResponse) :
    Except ApiError TitlePreview :=
  match send_request_to_source response with
  | .error e => .error e
  | .ok response =>
    if response.status = 404 then
      .error (.titleNotFound "Title with this name not found!")
    else
      match response.json with
      | none => .error .genericError
      | some result =>
        let data := result.data.Media
        let title := data.title
        .ok {
          id := data.id
          english_name := escape_html_tags_or_none title.english
          romaji_name := escape_html_tags_or_none title.romaji
          native_name := escape_html_tags_or_none title.native
          title_format := data.format
          url := data.siteUrl
          banner_image_url := data.bannerImage
          description := escape_html_tags_or_none data.description
          genres := data.genres
        }

/-- `AnilistApi.title_preview_by_id`, lines 103-151: same as the name
lookup, except the returned `id` is the caller-supplied `title_id` (the
query does not project the id back, and the code never reads it from the
body). -/
def title_preview_by_id (title_id : Int) (response : HttpResponse MediaResponse) :
    Except ApiError TitlePreview :=
  match send_request_to_source response with
  | .error e => .error e
  | .ok response =>
    if response.status = 404 then
      .error (.titleNotFound "Title with this name not found!")
    else
      match response.json with
      | none => .error .genericError
      | some result =>
        let data := result.data.Media
        let title := data.title
        .ok {
          id := title_id
          english_name := escape_html_tags_or_none title.english
          romaji_name := escape_html_tags_or_none title.romaji
          native_name := escape_html_tags_or_none title.native
          title_format := data.format
          url := data.siteUrl
          banner_image_url := data.bannerImage
          description := escape_html_tags_or_none data.description
          genres := data.genres
        }

/-- `AnilistApi.title_preview_page_by_name`, lines 153-206: no 404 status
check at all; the body's media list is inspected, an empty list raises
`TitleNotFound`, otherwise the first element is used. -/
def title_preview_page_by_name (response : HttpResponse PageResponse) :
    Except ApiError TitlePreview :=
  match send_request_to_source response with
  | .error e => .error e
  | .ok response =>
    match response.json with
    | none => .error .genericError
    | some result =>
      match result.data.Page.media with
      | [] => .error (.titleNotFound "Title not found!")
      | data :: _ =>
        let title := data.title
        .ok {
          id := data.id
          english_name := escape_html_tags_or_none title.english
          romaji_name := escape_html_tags_or_none title.romaji
          native_name := escape_html_tags_or_none title.native
          title_format := data.format
          url := data.siteUrl
          banner_image_url := data.bannerImage
          description := escape_html_tags_or_none data.description
          genres := data.genres
        }

/-- `AnilistApi.title_relations_by_id`, lines 208-270: after the 500 and
404 checks, one `TitleRelation` is built per edge, in order (the Python
for-append loop is `List.map`).  Note that, in the source, the node's
`description` is passed through without escaping here (line 265), unlike
the three preview operations. -/
def title_relations_by_id (id : Int) (response : HttpResponse RelationsResponse) :
    Except ApiError (List TitleRelation) :=
  match send_request_to_source response with
  | .error e => .error e
  | .ok response =>
    if response.status = 404 then
      .error (.titleNotFound "Title with this id not found!")
    else
      match response.json with
      | none => .error .genericError
      | some result =>
        let edges := result.data.Media.relations.edges
        .ok (edges.map fun edge =>
          { id := edge.node.id
            english_name := escape_html_tags_or_none edge.node.title.english
            romaji_name := escape_html_tags_or_none edge.node.title.romaji
            native_name := escape_html_tags_or_none edge.node.title.native
            title_format := edge.node.format
            url := edge.node.siteUrl
            banner_image_url := edge.node.bannerImage
            description := edge.node.description
            genres := edge.node.genres
            relation_type := edge.relationType })

/-- An aiohttp `ClientSession` object: an identity (which fresh creation it
came from) and its closed flag (`session.closed`). -/
structure ClientSession where
  sid : Nat
  closed : Bool
deriving DecidableEq, Repr

/-- The client's only mutable state: the `_session` slot (`None` until first
use). -/
structure AnilistApi where
  _session : Option ClientSession
deriving DecidableEq, Repr

/-- `AnilistApi.get_new_session`, lines 20-23: a freshly constructed, open
session; `fresh` is the new object's identity. -/
def get_new_session (fresh : Nat) : ClientSession :=
  { sid := fresh, closed := false }

/-- `AnilistApi.session` property, lines 25-29: if `_session` is `None` or
closed, create a new session, store it and return it; otherwise return the
stored one.  `fresh` is the identity a newly created session would get. -/
def AnilistApi.session (api : AnilistApi) (fresh : Nat) :
    ClientSession × AnilistApi :=
  match api._session with
  | none =>
    let s := get_new_session fresh
    (s, { _session := some s })
  | some s =>
    if s.closed then
      let s' := get_new_session fresh
      (s', { _session := some s' })
    else
      (s, api)

/-- `AnilistApi.close`, lines 31-34: if a session exists and is not closed,
close it (`await session.close()` marks the stored object closed); in every
other case nothing happens and nothing is raised. -/
def AnilistApi.close (api : AnilistApi) : AnilistApi :=
  match api._session with
  | none => api
  | some s =>
    if s.closed then api
    else { _session := some { s with closed := true } }

/-- A concrete media record used to instantiate theorems with hypotheses. -/
def sampleMedia : MediaData :=
  { id := 5
    title := { english := some "<b>Bold</b>", romaji := some "Futo", native := none }
    format := "MANGA"
    siteUrl := "https://anilist.co/manga/5"
    bannerImage := none
    description := some "x & <i>y</i>"
    genres := ["Action"] }

/-- A concrete single-media body built around `sampleMedia`. -/
def sampleMediaResponse : MediaResponse :=
  { data := { Media := sampleMedia } }

/-- A concrete paged body whose media list holds exactly `sampleMedia`. -/
def samplePageResponse : PageResponse :=
  { data := { Page := { media := [sampleMedia] } } }

/-- A concrete paged body whose media list is empty. -/
def emptyPageResponse : PageResponse :=
  { data := { Page := { media := [] } } }

/-- A concrete relations body with a single edge around `sampleMedia`. -/
def sampleRelationsResponse : RelationsResponse :=
  { data := { Media := { relations := { edges :=
      [{ node := sampleMedia, relationType := "SEQUEL" }] } } } }

/-- Claim C2: an upstream 404 makes `title_preview_by_name`,
`title_preview_by_id` and `title_relations_by_id` each raise
`TitleNotFound`, whatever the body. -/
theorem status_404_raises_title_not_found
    (t : String) (i : Int) (j1 j2 : Option MediaResponse)
    (j3 : Option RelationsResponse) :
    title_preview_by_name { status := 404, text := t, json := j1 } =
      .error (.titleNotFound "Title with this name not found!") ∧
    title_preview_by_id i { status := 404, text := t, json := j2 } =
      .error (.titleNotFound "Title with this name not found!") ∧
    title_relations_by_id i { status := 404, text := t, json := j3 } =
      .error (.titleNotFound "Title with this id not found!") := by
  refine ⟨?_, ?_, ?_⟩ <;> rfl

/-- Claim C3: any upstream status of 500 or above makes every one of the
four operations raise `ServerError` carrying the raw body text. -/
theorem status_5xx_raises_server_error
    (s : Nat) (t : String) (i : Int) (h : 500 ≤ s)
    (j1 j2 : Option MediaResponse) (j3 : Option PageResponse)
    (j4 : Option RelationsResponse) :
    title_preview_by_name { status := s, text := t, json := j1 } =
      .error (.serverError t) ∧
    title_preview_by_id i { status := s, text := t, json := j2 } =
      .error (.serverError t) ∧
    title_preview_page_by_name { status := s, text := t, json := j3 } =
      .error (.serverError t) ∧
    title_relations_by_id i { status := s, text := t, json := j4 } =
      .error (.serverError t) := by
  unfold title_preview_by_name title_preview_by_id title_preview_page_by_name
    title_relations_by_id send_request_to_source
  simp [h]

/-- Witness for C3 at status 502. -/
theorem status_5xx_raises_server_error_witness :
    title_preview_by_name { status := 502, text := "oops", json := none } =
      .error (.serverError "oops") ∧
    title_preview_by_id 1 { status := 502, text := "oops", json := none } =
      .error (.serverError "oops") ∧
    title_preview_page_by_name { status := 502, text := "oops", json := none } =
      .error (.serverError "oops") ∧
    title_relations_by_id 1 { status := 502, text := "oops", json := none } =
      .error (.serverError "oops") :=
  status_5xx_raises_server_error 502 "oops" 1 (by decide) none none none none

/-- Claim C4: whenever `title_preview_by_id` succeeds, the returned
preview's `id` is the caller-supplied identifier, whatever the response
body contained. -/
theorem by_id_returns_caller_id (title_id : Int)
    (response : HttpResponse MediaResponse) (p : TitlePreview)
    (h : title_preview_by_id title_id response = .ok p) :
    p.id = title_id := by
  by_cases h5 : response.status ≥ 500
  · simp [title_preview_by_id, send_request_to_source, h5] at h
  · by_cases h4 : response.status = 404
    · simp [title_preview_by_id, send_request_to_source, h5, h4] at h
    · cases hj : response.json with
      | none =>
        simp [title_preview_by_id, send_request_to_source, h5, h4, hj] at h
      | some result =>
        simp [title_preview_by_id, send_request_to_source, h5, h4, hj] at h
        rw [← h]

/-- Witness for C4 at id 42 on `sampleMediaResponse`. -/
theorem by_id_returns_caller_id_witness :
    ∃ p, title_preview_by_id 42
        { status := 200, text := "", json := some sampleMediaResponse } =
          .ok p ∧ p.id = 42 :=
  ⟨_, rfl, by_id_returns_caller_id 42
    { status := 200, text := "", json := some sampleMediaResponse } _ rfl⟩

/-- Claim C9: whenever `title_preview_by_name` succeeds, the returned
preview's `id` is the id embedded in the response body's `Media` record. -/
theorem by_name_returns_body_id (response : HttpResponse MediaResponse)
    (body : MediaResponse) (p : TitlePreview)
    (hj : response.json = some body)
    (h : title_preview_by_name response = .ok p) :
    p.id = body.data.Media.id := by
  by_cases h5 : response.status ≥ 500
  · simp [title_preview_by_name, send_request_to_source, h5] at h
  · by_cases h4 : response.status = 404
    · simp [title_preview_by_name, send_request_to_source, h5, h4] at h
    · simp [title_preview_by_name, send_request_to_source, h5, h4, hj] at h
      rw [← h]

/-- Witness for C9 on `sampleMediaResponse`, whose media id is 5. -/
theorem by_name_returns_body_id_witness :
    ∃ p, title_preview_by_name
        { status := 200, text := "", json := some sampleMediaResponse } =
          .ok p ∧ p.id = sampleMediaResponse.data.Media.id :=
  ⟨_, rfl, by_name_returns_body_id
    { status := 200, text := "", json := some sampleMediaResponse }
    sampleMediaResponse _ rfl rfl⟩

/-- Claim C5: below the 500 range, a paged-search body with an empty media
list raises `TitleNotFound`, and a non-empty one yields the preview built
from its first element. -/
theorem page_by_name_empty_or_first (s : Nat) (t : String)
    (body : PageResponse) (h5 : s < 500) :
    (body.data.Page.media = [] →
      title_preview_page_by_name { status := s, text := t, json := some body } =
        .error (.titleNotFound "Title not found!")) ∧
    (∀ m ms, body.data.Page.media = m :: ms →
      title_preview_page_by_name { status := s, text := t, json := some body } =
        .ok {
          id := m.id
          english_name := escape_html_tags_or_none m.title.english
          romaji_name := escape_html_tags_or_none m.title.romaji
          native_name := escape_html_tags_or_none m.title.native
          title_format := m.format
          url := m.siteUrl
          banner_image_url := m.bannerImage
          description := escape_html_tags_or_none m.description
          genres := m.genres }) := by
  have h5' : ¬ s ≥ 500 := Nat.not_le.mpr h5
  constructor
  · intro hm
    simp [title_preview_page_by_name, send_request_to_source, h5', hm]
  · intro m ms hm
    simp [title_preview_page_by_name, send_request_to_source, h5', hm]

/-- Witness for C5: empty list at status 200 raises, one-element list at
status 200 returns the first element's preview. -/
theorem page_by_name_empty_or_first_witness :
    title_preview_page_by_name
        { status := 200, text := "", json := some emptyPageResponse } =
      .error (.titleNotFound "Title not found!") ∧
    title_preview_page_by_name
        { status := 200, text := "", json := some samplePageResponse } =
      .ok {
        id := sampleMedia.id
        english_name := escape_html_tags_or_none sampleMedia.title.english
        romaji_name := escape_html_tags_or_none sampleMedia.title.romaji
        native_name := escape_html_tags_or_none sampleMedia.title.native
        title_format := sampleMedia.format
        url := sampleMedia.siteUrl
        banner_image_url := sampleMedia.bannerImage
        description := escape_html_tags_or_none sampleMedia.description
        genres := sampleMedia.genres } :=
  ⟨(page_by_name_empty_or_first 200 "" emptyPageResponse (by decide)).1 rfl,
   (page_by_name_empty_or_first 200 "" samplePageResponse (by decide)).2
     sampleMedia [] rfl⟩

/-- Claim C6: below the 500 range and away from 404, `title_relations_by_id`
returns exactly one `TitleRelation` per upstream edge, in upstream order; in
particular zero edges yield `[]`, not an error. -/
theorem relations_by_id_preserves_edges (i : Int) (s : Nat) (t : String)
    (body : RelationsResponse) (h5 : s < 500) (h4 : s ≠ 404) :
    ∃ rels,
      title_relations_by_id i { status := s, text := t, json := some body } =
        .ok rels ∧
      rels.length = body.data.Media.relations.edges.length ∧
      (body.data.Media.relations.edges = [] → rels = []) ∧
      ∀ n (hn : n < rels.length)
          (hm : n < body.data.Media.relations.edges.length),
        rels.get ⟨n, hn⟩ =
          (let edge := body.data.Media.relations.edges.get ⟨n, hm⟩
           { id := edge.node.id
             english_name := escape_html_tags_or_none edge.node.title.english
             romaji_name := escape_html_tags_or_none edge.node.title.romaji
             native_name := escape_html_tags_or_none edge.node.title.native
             title_format := edge.node.format
             url := edge.node.siteUrl
             banner_image_url := edge.node.bannerImage
             description := edge.node.description
             genres := edge.node.genres
             relation_type := edge.relationType }) := by
  have h5' : ¬ s ≥ 500 := Nat.not_le.mpr h5
  have hok : title_relations_by_id i { status := s, text := t, json := some body } =
      .ok (body.data.Media.relations.edges.map fun edge =>
        ({ id := edge.node.id
           english_name := escape_html_tags_or_none edge.node.title.english
           romaji_name := escape_html_tags_or_none edge.node.title.romaji
           native_name := escape_html_tags_or_none edge.node.title.native
           title_format := edge.node.format
           url := edge.node.siteUrl
           banner_image_url := edge.node.bannerImage
           description := edge.node.description
           genres := edge.node.genres
           relation_type := edge.relationType } : TitleRelation)) := by
    simp [title_relations_by_id, send_request_to_source, h5', h4]
  refine ⟨_, hok, by simp, fun he => by simp [he], fun n hn hm => ?_⟩
  simp [List.get_eq_getElem, List.getElem_map]

/-- Witness for C6 on the one-edge `sampleRelationsResponse` at status
200. -/
theorem relations_by_id_preserves_edges_witness :
    ∃ rels,
      title_relations_by_id 1
          { status := 200, text := "", json := some sampleRelationsResponse } =
        .ok rels ∧
      rels.length =
        sampleRelationsResponse.data.Media.relations.edges.length ∧
      (sampleRelationsResponse.data.Media.relations.edges = [] → rels = []) ∧
      ∀ n (hn : n < rels.length)
          (hm : n < sampleRelationsResponse.data.Media.relations.edges.length),
        rels.get ⟨n, hn⟩ =
          (let edge := sampleRelationsResponse.data.Media.relations.edges.get
            ⟨n, hm⟩
           { id := edge.node.id
             english_name := escape_html_tags_or_none edge.node.title.english
             romaji_name := escape_html_tags_or_none edge.node.title.romaji
             native_name := escape_html_tags_or_none edge.node.title.native
             title_format := edge.node.format
             url := edge.node.siteUrl
             banner_image_url := edge.node.bannerImage
             description := edge.node.description
             genres := edge.node.genres
             relation_type := edge.relationType }) :=
  relations_by_id_preserves_edges 1 200 "" sampleRelationsResponse
    (by decide) (by decide)

/-- Claim C7: a stored open session is returned unchanged; when the slot is
empty or holds a closed session, a fresh open session is created, stored and
returned. -/
theorem session_lazy_create_and_reuse (api : AnilistApi) (fresh : Nat) :
    (∀ s0, api._session = some s0 → s0.closed = false →
      (api.session fresh).1 = s0 ∧ (api.session fresh).2 = api) ∧
    ((api._session = none ∨
        ∃ s0, api._session = some s0 ∧ s0.closed = true) →
      (api.session fresh).1 = get_new_session fresh ∧
      (api.session fresh).1.closed = false ∧
      (api.session fresh).2._session = some (api.session fresh).1) := by
  constructor
  · intro s0 hs hc
    simp [AnilistApi.session, hs, hc]
  · intro hcase
    rcases hcase with hn | ⟨s0, hs, hc⟩
    · simp [AnilistApi.session, hn, get_new_session]
    · simp [AnilistApi.session, hs, hc, get_new_session]

/-- Witness for C7: first access on a fresh client creates, stores and
returns an open session. -/
theorem session_lazy_create_and_reuse_witness :
    (AnilistApi.session ⟨none⟩ 0).1 = get_new_session 0 ∧
    (AnilistApi.session ⟨none⟩ 0).1.closed = false ∧
    (AnilistApi.session ⟨none⟩ 0).2._session =
      some (AnilistApi.session ⟨none⟩ 0).1 :=
  (session_lazy_create_and_reuse ⟨none⟩ 0).2 (Or.inl rfl)

/-- Claim C8: `close` is idempotent — closing twice is the same as closing
once, and closing a client that never created a session changes nothing
(and, being a total function, it never raises). -/
theorem close_idempotent (api : AnilistApi) :
    api.close.close = api.close ∧
    AnilistApi.close ⟨none⟩ = (⟨none⟩ : AnilistApi) := by
  refine ⟨?_, rfl⟩
  rcases api with ⟨_ | s⟩
  · rfl
  · rcases s with ⟨sid, closed⟩
    cases closed <;> simp [AnilistApi.close]

/-- Claim C10: the paged search has no 404 status check — at status 404 an
unparseable body propagates as a generic failure, an empty media list
raises `TitleNotFound` (from the body, not the status), and a non-empty one
returns the first element's preview despite the 404 status. -/
theorem page_by_name_no_404_status_check (t : String) (body : PageResponse) :
    title_preview_page_by_name { status := 404, text := t, json := none } =
      .error .genericError ∧
    (body.data.Page.media = [] →
      title_preview_page_by_name { status := 404, text := t, json := some body } =
        .error (.titleNotFound "Title not found!")) ∧
    (∀ m ms, body.data.Page.media = m :: ms →
      title_preview_page_by_name { status := 404, text := t, json := some body } =
        .ok {
          id := m.id
          english_name := escape_html_tags_or_none m.title.english
          romaji_name := escape_html_tags_or_none m.title.romaji
          native_name := escape_html_tags_or_none m.title.native
          title_format := m.format
          url := m.siteUrl
          banner_image_url := m.bannerImage
          description := escape_html_tags_or_none m.description
          genres := m.genres }) := by
  refine ⟨rfl, ?_, ?_⟩
  · intro hm
    simp [title_preview_page_by_name, send_request_to_source, hm]
  · intro m ms hm
    simp [title_preview_page_by_name, send_request_to_source, hm]

/-- Witness for C10: despite status 404, a one-element media list still
yields a successful preview. -/
theorem page_by_name_no_404_status_check_witness :
    title_preview_page_by_name
        { status := 404, text := "", json := some samplePageResponse } =
      .ok {
        id := sampleMedia.id
        english_name := escape_html_tags_or_none sampleMedia.title.english
        romaji_name := escape_html_tags_or_none sampleMedia.title.romaji
        native_name := escape_html_tags_or_none sampleMedia.title.native
        title_format := sampleMedia.format
        url := sampleMedia.siteUrl
        banner_image_url := sampleMedia.bannerImage
        description := escape_html_tags_or_none sampleMedia.description
        genres := sampleMedia.genres } :=
  (page_by_name_no_404_status_check "" samplePageResponse).2.2
    sampleMedia [] rfl

/-- A relations body whose single edge carries markup in both a display
name and the description. -/
def markupMedia : MediaData :=
  { id := 5
    title := { english := some "<b>Bold</b>", romaji := none, native := none }
    format := "MANGA"
    siteUrl := "u"
    bannerImage := none
    description := some "<b>x</b>"
    genres := [] }

/-- The relations body wrapping `markupMedia` in a single edge. -/
def markupRelationsResponse : RelationsResponse :=
  { data := { Media := { relations := { edges :=
      [{ node := markupMedia, relationType := "SEQUEL" }] } } } }

/-- Claim C1 (code bug): on a successful `title_relations_by_id` call the
returned record's display names are escaped but its description is passed
through verbatim — at this input the description keeps `<b>x</b>` even
though its escaped form, `&lt;b&gt;x&lt;/b&gt;`, differs, contradicting
the escaping invariant that every other free-text field obeys. -/
theorem relations_description_not_escaped :
    (∃ rels,
      title_relations_by_id 7
          { status := 200, text := "", json := some markupRelationsResponse } =
        .ok rels ∧
      rels.map TitleRelation.description = [some "<b>x</b>"] ∧
      rels.map TitleRelation.english_name = [some "&lt;b&gt;Bold&lt;/b&gt;"]) ∧
    escape_html_tags_or_none (some "<b>x</b>") = some "&lt;b&gt;x&lt;/b&gt;" ∧
    (some "<b>x</b>" : Option String) ≠ some "&lt;b&gt;x&lt;/b&gt;" :=
  ⟨⟨_, rfl, by decide, by decide⟩, by decide, by decide⟩
